import Mathlib

/-!
Verification development for the profile-reconciliation module of
`alekus2/portifolioalek` (source file `src/logger.js`).

The JavaScript source is shallowly embedded below.  Asynchronous supabase
calls are modelled by explicit state passing: the `profiles` table is a
`List Profile`, each adapter operation returns the new table together with
the list of store calls it issued and an `Except JsError` result mirroring
the `throw` behaviour of the source.  Fallibility of the backing store is
modelled by a `Faults` record of per-operation failure flags.
-/

namespace PortfolioAuth

/-- JavaScript truthiness of an optional string value: `null` / `undefined`
and the empty string are falsy, every other string is truthy.  This models
checks such as `if (!uid)` in the source. -/
def jsTruthy : Option String → Bool
  | none => false
  | some s => !(s == "")

/-- JavaScript `v || ""` on an optional string: `null` / `undefined`
collapse to the empty string, any string is returned as is (for the empty
string both sides agree). -/
def jsOrEmpty : Option String → String
  | none => ""
  | some s => s

/-- Model of JavaScript `String.prototype.toLowerCase` (per-character
lower-casing), used by `upsertProfileById` in the source. -/
def lowerString (s : String) : String := ⟨s.data.map Char.toLower⟩

/-- Errors thrown by the embedded functions.  `validationError` models the
`throw new Error(...)` guards that fire before any store call,
`storeError` models a rejection reported by the supabase client, and
`authError` a rejection by the identity provider. -/
inductive JsError
  | validationError (msg : String)
  | storeError (msg : String)
  | authError (msg : String)
deriving Repr, DecidableEq

instance {ε α : Type} [DecidableEq ε] [DecidableEq α] : DecidableEq (Except ε α) := fun x y =>
  match x, y with
  | .ok a, .ok b =>
    if h : a = b then .isTrue (congrArg Except.ok h)
    else .isFalse (fun hh => h (Except.ok.inj hh))
  | .error a, .error b =>
    if h : a = b then .isTrue (congrArg Except.error h)
    else .isFalse (fun hh => h (Except.error.inj hh))
  | .ok _, .error _ => .isFalse (fun hh => Except.noConfusion hh)
  | .error _, .ok _ => .isFalse (fun hh => Except.noConfusion hh)

/-- A row of the `profiles` table, as built by the source
(`{ id, email, nome, data_nascimento, role }`).  Optional columns are
`Option String`, with `none` standing for SQL `null` / JS `null`. -/
structure Profile where
  id : String
  email : Option String
  nome : Option String
  data_nascimento : Option String
  role : String
deriving Repr, DecidableEq

/-- The destructured argument `{ email, nome = null, data_nascimento = null }`
of `createOrUpdateProfile`.  An absent key and an explicit `null` both map
to `none`, exactly as the JS default parameters behave. -/
structure ProfileFields where
  email : Option String := none
  nome : Option String := none
  data_nascimento : Option String := none
deriving Repr, DecidableEq

/-- The destructured argument of `upsertProfileById`:
with field `role` defaulting to the string `user`. -/
structure UpsertArgs where
  id : Option String := none
  email : Option String := none
  nome : Option String := none
  data_nascimento : Option String := none
  role : String := "user"
deriving Repr, DecidableEq

/-- Which backing-store operations fail on their next use.  This models the
`error` component of the supabase responses. -/
structure Faults where
  readFails : Bool := false
  upsertFails : Bool := false
deriving Repr, DecidableEq

/-- One call issued against the backing store.  `readCall` and `upsertCall`
are the two operations the source actually performs.  The
`updateLastActiveCall` constructor is modelled from the spec: section 4.2
describes a best-effort `updateLastActive(id, timestamp)` adapter
operation, but no such function exists anywhere in `src/logger.js`; the
constructor exists only so that its absence from every trace is statable. -/
inductive StoreCall
  | readCall (uid : String)
  | upsertCall (p : Profile)
  | updateLastActiveCall (uid : String)
deriving Repr, DecidableEq

/-- Whether a store call is an `updateLastActive` call. -/
def StoreCall.isLastActive : StoreCall → Bool
  | .updateLastActiveCall _ => true
  | _ => false

/-- Whether an `Except` result is a thrown `ValidationError`. -/
def isValidationFailure {α : Type} : Except JsError α → Bool
  | .error (.validationError _) => true
  | _ => false

/-- Lookup of the row with the given id, modelling
the select-eq-maybeSingle chain of the source on a table whose conflict
key is `id`. -/
def findRow (t : List Profile) (i : String) : Option Profile :=
  t.find? (fun r => r.id == i)

/-- Supabase upsert with conflict key `id`: the row with the same `id` is
replaced in place if it exists, otherwise the new row is inserted. -/
def upsertRow : List Profile → Profile → List Profile
  | [], p => [p]
  | r :: rs, p => if r.id == p.id then p :: rs else r :: upsertRow rs p

/-- Number of rows of the table carrying the given id. -/
def countId (t : List Profile) (i : String) : Nat :=
  (t.filter (fun r => r.id == i)).length

/-- Embedding of `createOrUpdateProfile(uid, { email, nome = null,
data_nascimento = null })` from `src/logger.js` lines 9 to 33: throws when
`uid` is falsy, otherwise builds the full row with role `user` and
upserts it with conflict key `id`, returning the stored row.  Result:
(new table, issued store calls, thrown error or returned profile). -/
def createOrUpdateProfile (f : Faults) (t : List Profile) (uid : Option String)
    (fl : ProfileFields) : List Profile × List StoreCall × Except JsError Profile :=
  if jsTruthy uid = false then
    (t, [], .error (.validationError "UID obrigatorio para criar o profile."))
  else
    let profile : Profile :=
      { id := jsOrEmpty uid, email := fl.email, nome := fl.nome,
        data_nascimento := fl.data_nascimento, role := "user" }
    if f.upsertFails then
      (t, [.upsertCall profile], .error (.storeError "Erro ao inserir/upsert profile"))
    else
      (upsertRow t profile, [.upsertCall profile], .ok profile)

/-- Embedding of `getProfile(uid)` from `src/logger.js` lines 38 to 51:
returns `null` immediately when `uid` is falsy (no store call), otherwise
performs the read, throwing on a store error.  Reads do not change the
table, so only the calls and the result are returned. -/
def getProfile (f : Faults) (t : List Profile) (uid : Option String) :
    List StoreCall × Except JsError (Option Profile) :=
  if jsTruthy uid = false then ([], .ok none)
  else if f.readFails then
    ([.readCall (jsOrEmpty uid)], .error (.storeError "Erro ao buscar profile"))
  else
    ([.readCall (jsOrEmpty uid)], .ok (findRow t (jsOrEmpty uid)))

/-- Embedding of `upsertProfileById(supabase, { id, email, nome,
data_nascimento, role })` from the second document of `src/logger.js`:
requires a client and a truthy id, lower-cases the email (with empty-string
fallback), and upserts
the payload with conflict key `id`. -/
def upsertProfileById (client : Bool) (f : Faults) (t : List Profile) (a : UpsertArgs) :
    List Profile × List StoreCall × Except JsError Profile :=
  if client = false then
    (t, [], .error (.validationError "Supabase client required"))
  else if jsTruthy a.id = false then
    (t, [], .error (.validationError "id required"))
  else
    let payload : Profile :=
      { id := jsOrEmpty a.id, email := some (lowerString (jsOrEmpty a.email)),
        nome := a.nome, data_nascimento := a.data_nascimento, role := a.role }
    if f.upsertFails then
      (t, [.upsertCall payload], .error (.storeError "Failed to upsert profile"))
    else
      (upsertRow t payload, [.upsertCall payload], .ok payload)

/-- An authenticated user as delivered by the identity provider:
`{ id, email }`. -/
structure AuthUser where
  id : String
  email : Option String
deriving Repr, DecidableEq

/-- A session payload as delivered to the auth listener; `session.user` may
be absent. -/
structure Session where
  user : Option AuthUser
deriving Repr, DecidableEq

/-- Outcome of `supabase.auth.signInWithPassword` as seen by `signIn`:
provider error, success without a user object, or success with a user. -/
inductive SignInOutcome
  | providerError (msg : String)
  | noUser
  | okUser (u : AuthUser)
deriving Repr, DecidableEq

/-- Value returned by `signIn`: either `{ needsAction: true }` or
`{ user, profile }`. -/
inductive SignInResult
  | needsAction
  | signedIn (user : AuthUser) (profile : Profile)
deriving Repr, DecidableEq

/-- Embedding of `signIn({ email, password })` from `src/logger.js` lines
81 to 102: throws on a provider error; returns `needsAction` when no user
is delivered; otherwise reads the profile and, only when the read returns
`null`, creates a minimal profile with `nome: null, data_nascimento: null`. -/
def signIn (f : Faults) (outcome : SignInOutcome) (t : List Profile) :
    List Profile × List StoreCall × Except JsError SignInResult :=
  match outcome with
  | .providerError msg => (t, [], .error (.authError msg))
  | .noUser => (t, [], .ok .needsAction)
  | .okUser u =>
    match getProfile f t (some u.id) with
    | (cs₁, .error e) => (t, cs₁, .error e)
    | (cs₁, .ok (some p)) => (t, cs₁, .ok (.signedIn u p))
    | (cs₁, .ok none) =>
      match createOrUpdateProfile f t (some u.id)
        { email := u.email, nome := none, data_nascimento := none } with
      | (t₂, cs₂, .error e) => (t₂, cs₁ ++ cs₂, .error e)
      | (t₂, cs₂, .ok p) => (t₂, cs₁ ++ cs₂, .ok (.signedIn u p))

/-- A pending registration record, as described by the spec data model:
`{ email, nome, data_nascimento }` keyed by lower-cased email. -/
structure PendingReg where
  email : String
  nome : Option String := none
  data_nascimento : Option String := none
deriving Repr, DecidableEq

/-- Modelled from the spec: section 4.1 `save(email, fields)` of the
Pending-Registration Cache stores the fields under the lower-cased email
key, overwriting any prior value for that key.  No pending-registration
cache code exists anywhere in `src/logger.js`; this definition only sets up
and observes cache states for the claims that mention the cache. -/
def savePending (c : List (String × PendingReg)) (email : String)
    (nome data_nascimento : Option String) : List (String × PendingReg) :=
  let k := lowerString email
  (c.filter (fun kv => !(kv.1 == k))) ++
    [(k, { email := email, nome := nome, data_nascimento := data_nascimento })]

/-- Modelled from the spec: section 4.1 `read(email)` of the
Pending-Registration Cache lower-cases the email and returns the stored
record or `null`.  As with `savePending`, no corresponding code exists in
`src/logger.js`. -/
def readPending (c : List (String × PendingReg)) (email : String) : Option PendingReg :=
  (c.find? (fun kv => kv.1 == lowerString email)).map Prod.snd

/-- The full state the claims quantify over: the `profiles` table together
with the pending-registration cache.  The source code never reads or
writes the cache component. -/
structure World where
  table : List Profile
  pending : List (String × PendingReg)
deriving Repr, DecidableEq

/-- The body of the async callback registered by `initAuthListener`
(`src/logger.js` lines 119 to 127), before the surrounding `try`/`catch`:
when the session carries a user it reads the profile and, only when the
read returns `null`, creates a minimal profile with explicit `null` values
for `nome` and `data_nascimento`.  The body manipulates only the
`profiles` table. -/
def authHandlerTable (f : Faults) (t : List Profile) (session : Option Session) :
    List Profile × List StoreCall × Except JsError Unit :=
  match session with
  | none => (t, [], .ok ())
  | some s =>
    match s.user with
    | none => (t, [], .ok ())
    | some u =>
      match getProfile f t (some u.id) with
      | (cs₁, .error e) => (t, cs₁, .error e)
      | (cs₁, .ok (some _)) => (t, cs₁, .ok ())
      | (cs₁, .ok none) =>
        match createOrUpdateProfile f t (some u.id)
            { email := u.email, nome := none, data_nascimento := none } with
        | (t₂, cs₂, .error e) => (t₂, cs₁ ++ cs₂, .error e)
        | (t₂, cs₂, .ok _) => (t₂, cs₁ ++ cs₂, .ok ())

/-- The callback body lifted to the full state: the source contains no
access whatsoever to the pending cache, so the pending component passes
through untouched. -/
def authHandlerBody (f : Faults) (w : World) (session : Option Session) :
    World × List StoreCall × Except JsError Unit :=
  match authHandlerTable f w.table session with
  | (t', cs, r) => ({ table := t', pending := w.pending }, cs, r)

/-- The registered listener callback of `initAuthListener` including its
`try`/`catch` (`src/logger.js` lines 118 to 131): any error thrown by the
body is caught and logged.  Result components: new world, issued store
calls, logged errors, and what escapes the handler to its caller. -/
def authHandler (f : Faults) (w : World) (session : Option Session) :
    World × List StoreCall × List JsError × Except JsError Unit :=
  match authHandlerBody f w session with
  | (w', cs, .error e) => (w', cs, [e], .ok ())
  | (w', cs, .ok ()) => (w', cs, [], .ok ())

/-- A stored profile for identity `u1` with a populated `nome`, used as a
concrete test row. -/
def pAna : Profile :=
  { id := "u1", email := some "a@x.com", nome := some "Ana",
    data_nascimento := none, role := "user" }

/-- The minimal profile row the source writes for identity `u1` with email
`a@x.com`: explicit `null` in both optional columns. -/
def pMin : Profile :=
  { id := "u1", email := some "a@x.com", nome := none,
    data_nascimento := none, role := "user" }

/-- A concrete authenticated user matching `pAna` / `pMin`. -/
def uAna : AuthUser := { id := "u1", email := some "a@x.com" }

/-- Table obtained by applying the minimal-fields write of the source to a
table whose only row already has a populated `nome`. -/
def c1Table : List Profile :=
  (createOrUpdateProfile {} [pAna] (some "u1") { email := some "a@x.com" }).1

/-- State reached by the listener callback from a world holding a pending
registration for `a@x.com` with nome `Ana`, an empty table, and a session
whose user carries exactly that email. -/
def c2World : World :=
  (authHandler {} { table := [], pending := savePending [] "a@x.com" (some "Ana") none }
    (some { user := some uAna })).1

/-- Table obtained by the source write for identity `u1` with mixed-case
input email. -/
def c6Table : List Profile :=
  (createOrUpdateProfile {} [] (some "u1") { email := some "A@X.com" }).1

lemma upsertRow_cons (r : Profile) (rs : List Profile) (p : Profile) :
    upsertRow (r :: rs) p =
      if (r.id == p.id) = true then p :: rs else r :: upsertRow rs p := rfl

lemma countId_cons (r : Profile) (rs : List Profile) (i : String) :
    countId (r :: rs) i = (if (r.id == i) = true then 1 else 0) + countId rs i := by
  by_cases h : (r.id == i) = true
  · simp [countId, List.filter_cons, h]
    omega
  · simp [countId, List.filter_cons, h]

lemma upsertRow_idem (p : Profile) : ∀ t, upsertRow (upsertRow t p) p = upsertRow t p := by
  intro t
  induction t with
  | nil => simp [upsertRow]
  | cons r rs ih =>
    by_cases h : (r.id == p.id) = true
    · simp [upsertRow, h]
    · simp [upsertRow, h, ih]

lemma countId_upsertRow_ne (p : Profile) (i : String) (h : (p.id == i) = false) :
    ∀ t, countId (upsertRow t p) i = countId t i := by
  intro t
  induction t with
  | nil => simp [upsertRow, countId_cons, countId, h]
  | cons r rs ih =>
    by_cases hr : (r.id == p.id) = true
    · have h1 : r.id = p.id := by simpa using hr
      have hri : (r.id == i) = false := by rw [h1]; exact h
      simp [upsertRow_cons, hr, countId_cons, h, hri]
    · simp [upsertRow_cons, hr, countId_cons, ih]

lemma countId_upsertRow_self (p : Profile) :
    ∀ t, countId t p.id ≤ 1 → countId (upsertRow t p) p.id ≤ 1 := by
  intro t
  induction t with
  | nil =>
    intro _
    simp [upsertRow, countId_cons, countId]
  | cons r rs ih =>
    intro hle
    rw [countId_cons] at hle
    by_cases hr : (r.id == p.id) = true
    · rw [upsertRow_cons, if_pos hr, countId_cons]
      simp [hr] at hle
      simp
      omega
    · have hrf : (r.id == p.id) = false := by simpa using hr
      rw [upsertRow_cons, if_neg hr, countId_cons]
      simp [hrf] at hle ⊢
      exact ih hle

lemma countId_upsertRow_le (t : List Profile) (p : Profile) (i : String)
    (h : ∀ j, countId t j ≤ 1) : countId (upsertRow t p) i ≤ 1 := by
  by_cases hpi : (p.id == i) = true
  · have h1 : p.id = i := by simpa using hpi
    subst h1
    exact countId_upsertRow_self p t (h p.id)
  · have h2 : (p.id == i) = false := by simpa using hpi
    rw [countId_upsertRow_ne p i h2 t]
    exact h i

lemma authHandler_pending_eq (f : Faults) (w : World) (s : Option Session) :
    (authHandler f w s).1.pending = w.pending := by
  rcases h : authHandlerTable f w.table s with ⟨t', cs, r⟩
  cases r with
  | error e => simp [authHandler, authHandlerBody, h]
  | ok u =>
    cases u
    simp [authHandler, authHandlerBody, h]

lemma authHandler_calls_eq (f : Faults) (w : World) (s : Option Session) :
    (authHandler f w s).2.1 = (authHandlerTable f w.table s).2.1 := by
  rcases h : authHandlerTable f w.table s with ⟨t', cs, r⟩
  cases r with
  | error e => simp [authHandler, authHandlerBody, h]
  | ok u =>
    cases u
    simp [authHandler, authHandlerBody, h]

lemma authHandlerTable_calls (f : Faults) (t : List Profile) (s : Option Session) :
    ∀ c ∈ (authHandlerTable f t s).2.1,
      (∃ i, c = StoreCall.readCall i) ∨
      ∃ p, c = StoreCall.upsertCall p ∧ p.nome = none ∧ p.data_nascimento = none := by
  cases s with
  | none => simp [authHandlerTable]
  | some s₀ =>
    rcases s₀ with ⟨uo⟩
    cases uo with
    | none => simp [authHandlerTable]
    | some u =>
      cases hid : (u.id == "") with
      | true =>
        intro c hc
        simp [authHandlerTable, getProfile, createOrUpdateProfile, jsTruthy, hid] at hc
      | false =>
        cases hrf : f.readFails with
        | true =>
          intro c hc
          simp [authHandlerTable, getProfile, jsTruthy, hid, hrf] at hc
          subst hc
          exact Or.inl ⟨_, rfl⟩
        | false =>
          cases hfind : findRow t u.id with
          | some p =>
            intro c hc
            simp [authHandlerTable, getProfile, jsTruthy, jsOrEmpty, hid, hrf, hfind] at hc
            subst hc
            exact Or.inl ⟨_, rfl⟩
          | none =>
            intro c hc
            cases huf : f.upsertFails with
            | true =>
              simp [authHandlerTable, getProfile, createOrUpdateProfile, jsTruthy, jsOrEmpty,
                hid, hrf, hfind, huf] at hc
              rcases hc with rfl | rfl
              · exact Or.inl ⟨_, rfl⟩
              · exact Or.inr ⟨_, rfl, rfl, rfl⟩
            | false =>
              simp [authHandlerTable, getProfile, createOrUpdateProfile, jsTruthy, jsOrEmpty,
                hid, hrf, hfind, huf] at hc
              rcases hc with rfl | rfl
              · exact Or.inl ⟨_, rfl⟩
              · exact Or.inr ⟨_, rfl, rfl, rfl⟩

lemma authHandler_upsert_minimal (f : Faults) (w : World) (s : Option Session) :
    ∀ p, StoreCall.upsertCall p ∈ (authHandler f w s).2.1 →
      p.nome = none ∧ p.data_nascimento = none := by
  intro p hp
  rw [authHandler_calls_eq] at hp
  rcases authHandlerTable_calls f w.table s _ hp with ⟨i, hi⟩ | ⟨q, hq, h1, h2⟩
  · simp at hi
  · obtain rfl : p = q := by injection hq
    exact ⟨h1, h2⟩

/-- Claim C1, counterexample.  The claim asserts that the minimal-path
write is a partial update that does not overwrite `nome` or
`data_nascimento` with null.  It is not: `createOrUpdateProfile` builds
the full row with explicit `null` optional fields, so applying the
minimal-fields write to a table whose row for `u1` has `nome = Ana`
replaces that `nome` with `null`. -/
theorem C1_counterexample :
    (findRow [pAna] "u1").bind Profile.nome = some "Ana" ∧
    (findRow c1Table "u1").bind Profile.nome = none := by
  decide

/-- Claim C1, amended.  For every identity whose profile row is already
stored, the listener-mode reconciliation leaves the whole state unchanged
and issues only the read: the non-regression of previously populated
optional fields holds because the minimal write is guarded by the
profile read and never executed when a row exists, not because the write
is partial. -/
theorem C1_amended (f : Faults) (w : World) (u : AuthUser) (p : Profile)
    (hid : (u.id == "") = false) (hr : f.readFails = false)
    (hp : findRow w.table u.id = some p) :
    authHandler f w (some { user := some u }) = (w, [.readCall u.id], [], .ok ()) := by
  have hb : authHandlerTable f w.table (some { user := some u }) =
      (w.table, [.readCall u.id], .ok ()) := by
    simp [authHandlerTable, getProfile, jsTruthy, jsOrEmpty, hid, hr, hp]
  simp [authHandler, authHandlerBody, hb]

/-- Claim C1, witness for the amended theorem at a concrete populated
profile. -/
theorem C1_amended_witness :
    authHandler {} { table := [pAna], pending := [] } (some { user := some uAna }) =
      ({ table := [pAna], pending := [] }, [.readCall "u1"], [], .ok ()) :=
  C1_amended {} { table := [pAna], pending := [] } uAna pAna (by decide) rfl (by decide)

/-- Claim C2, counterexample.  After saving a pending registration for
`a@x.com` with nome `Ana` and delivering a session for the user
`(u1, a@x.com)`, the listener-mode reconciliation neither merges the
cached `nome` into the profile nor clears the cache entry: the source
contains no pending-registration lookup at all. -/
theorem C2_counterexample :
    ¬ ((findRow c2World.table "u1").bind Profile.nome = some "Ana" ∧
        readPending c2World.pending "a@x.com" = none) := by
  decide

/-- Claim C2, amended.  The listener-mode reconciliation ignores pending
registration data entirely: it leaves the pending cache untouched, and
every profile row it upserts carries explicit `null` in `nome` and
`data_nascimento`. -/
theorem C2_amended (f : Faults) (w : World) (s : Option Session) :
    (authHandler f w s).1.pending = w.pending ∧
    ∀ p, StoreCall.upsertCall p ∈ (authHandler f w s).2.1 →
      p.nome = none ∧ p.data_nascimento = none :=
  ⟨authHandler_pending_eq f w s, authHandler_upsert_minimal f w s⟩

/-- Claim C2, witness for the amended theorem: the minimal row `pMin` is
actually upserted by a concrete listener run, and its optional fields are
`null`. -/
theorem C2_amended_witness :
    pMin.nome = none ∧ pMin.data_nascimento = none :=
  (C2_amended {} { table := [], pending := [] } (some { user := some uAna })).2 pMin
    (by decide)

/-- Claim C3, confirmed.  When the identity already has a stored profile,
`signIn` issues only the read, changes nothing in the store, and returns
the stored row as is. -/
theorem C3_read_first_signin (f : Faults) (t : List Profile) (u : AuthUser) (p : Profile)
    (hid : (u.id == "") = false) (hr : f.readFails = false)
    (hp : findRow t u.id = some p) :
    signIn f (.okUser u) t = (t, [.readCall u.id], .ok (.signedIn u p)) := by
  simp [signIn, getProfile, jsTruthy, jsOrEmpty, hid, hr, hp]

/-- Claim C3, witness at a concrete stored profile. -/
theorem C3_read_first_signin_witness :
    signIn {} (.okUser uAna) [pAna] = ([pAna], [.readCall "u1"], .ok (.signedIn uAna pAna)) :=
  C3_read_first_signin {} [pAna] uAna pAna (by decide) rfl (by decide)

/-- Claim C4, confirmed.  With a falsy id, `createOrUpdateProfile` and
`upsertProfileById` throw a validation error before issuing any store
call, leaving the table unchanged. -/
theorem C4_empty_id_validation (f : Faults) (t : List Profile) (uid : Option String)
    (fl : ProfileFields) (client : Bool) (a : UpsertArgs)
    (hu : jsTruthy uid = false) (ha : jsTruthy a.id = false) :
    createOrUpdateProfile f t uid fl =
      (t, [], .error (.validationError "UID obrigatorio para criar o profile.")) ∧
    (upsertProfileById client f t a).1 = t ∧
    (upsertProfileById client f t a).2.1 = [] ∧
    isValidationFailure (upsertProfileById client f t a).2.2 = true := by
  refine ⟨by simp [createOrUpdateProfile, hu], ?_, ?_, ?_⟩ <;>
    cases client <;> simp [upsertProfileById, ha, isValidationFailure]

/-- Claim C4, witness at a missing id. -/
theorem C4_empty_id_validation_witness :
    createOrUpdateProfile {} [pAna] none {} =
      ([pAna], [], .error (.validationError "UID obrigatorio para criar o profile.")) ∧
    (upsertProfileById true {} [pAna] {}).1 = [pAna] ∧
    (upsertProfileById true {} [pAna] {}).2.1 = [] ∧
    isValidationFailure (upsertProfileById true {} [pAna] {}).2.2 = true :=
  C4_empty_id_validation {} [pAna] none {} true {} rfl rfl

/-- Claim C5, confirmed.  Invoking `createOrUpdateProfile` twice with
identical inputs yields the same table as invoking it once, and starting
from a table with at most one row per id it keeps at most one row per id. -/
theorem C5_reconciliation_idempotent (f : Faults) (t : List Profile) (uid : Option String)
    (fl : ProfileFields) (h : ∀ j, countId t j ≤ 1) :
    (createOrUpdateProfile f (createOrUpdateProfile f t uid fl).1 uid fl).1 =
      (createOrUpdateProfile f t uid fl).1 ∧
    ∀ j, countId (createOrUpdateProfile f t uid fl).1 j ≤ 1 := by
  cases huv : jsTruthy uid with
  | false =>
    constructor
    · simp [createOrUpdateProfile, huv]
    · intro j
      simp [createOrUpdateProfile, huv]
      exact h j
  | true =>
    cases hfv : f.upsertFails with
    | true =>
      constructor
      · simp [createOrUpdateProfile, huv, hfv]
      · intro j
        simp [createOrUpdateProfile, huv, hfv]
        exact h j
    | false =>
      constructor
      · simp [createOrUpdateProfile, huv, hfv, upsertRow_idem]
      · intro j
        simp [createOrUpdateProfile, huv, hfv]
        exact countId_upsertRow_le t _ j h

/-- Claim C5, witness at a concrete input, including the single-row bound
for the written id. -/
theorem C5_reconciliation_idempotent_witness :
    (createOrUpdateProfile {} (createOrUpdateProfile {} [] (some "u1")
          { email := some "a@x.com" }).1 (some "u1") { email := some "a@x.com" }).1 =
      (createOrUpdateProfile {} [] (some "u1") { email := some "a@x.com" }).1 ∧
    countId (createOrUpdateProfile {} [] (some "u1") { email := some "a@x.com" }).1 "u1" ≤ 1 :=
  ⟨(C5_reconciliation_idempotent {} [] (some "u1") { email := some "a@x.com" }
      (fun j => by simp [countId])).1,
    (C5_reconciliation_idempotent {} [] (some "u1") { email := some "a@x.com" }
      (fun j => by simp [countId])).2 "u1"⟩

/-- Claim C6, counterexample.  `createOrUpdateProfile` stores the email
exactly as given: the mixed-case input `A@X.com` is written verbatim, not
in lower-cased canonical form. -/
theorem C6_counterexample :
    (findRow c6Table "u1").bind Profile.email = some "A@X.com" ∧
    lowerString "A@X.com" = "a@x.com" ∧
    ¬ (findRow c6Table "u1").bind Profile.email = some (lowerString "A@X.com") := by
  decide

/-- Claim C6, amended.  Only `upsertProfileById` lower-cases the email
before writing; `createOrUpdateProfile` writes the email field exactly as
supplied. -/
theorem C6_amended (f : Faults) (t : List Profile) (a : UpsertArgs) (uid : Option String)
    (fl : ProfileFields) (ha : jsTruthy a.id = true) (hu : jsTruthy uid = true)
    (hf : f.upsertFails = false) :
    (upsertProfileById true f t a).2.2 =
      .ok { id := jsOrEmpty a.id, email := some (lowerString (jsOrEmpty a.email)),
            nome := a.nome, data_nascimento := a.data_nascimento, role := a.role } ∧
    (createOrUpdateProfile f t uid fl).2.2 =
      .ok { id := jsOrEmpty uid, email := fl.email, nome := fl.nome,
            data_nascimento := fl.data_nascimento, role := "user" } := by
  constructor <;> simp [upsertProfileById, createOrUpdateProfile, ha, hu, hf]

/-- Claim C6, witness: the adapter that lower-cases versus the one that
does not, at the same mixed-case input. -/
theorem C6_amended_witness :
    (upsertProfileById true {} [] { id := some "u1", email := some "A@X.com" }).2.2 =
      .ok { id := "u1", email := some "a@x.com", nome := none,
            data_nascimento := none, role := "user" } ∧
    (createOrUpdateProfile {} [] (some "u1") { email := some "A@X.com" }).2.2 =
      .ok { id := "u1", email := some "A@X.com", nome := none,
            data_nascimento := none, role := "user" } :=
  C6_amended {} [] { id := some "u1", email := some "A@X.com" } (some "u1")
    { email := some "A@X.com" } rfl rfl rfl

/-- Claim C7, counterexample.  A concrete session activation with a user
runs the reconciliation (read plus minimal upsert) but triggers no
`updateLastActive` call. -/
theorem C7_counterexample :
    (authHandler {} { table := [], pending := [] } (some { user := some uAna })).2.1 =
      [.readCall "u1", .upsertCall pMin] ∧
    ((authHandler {} { table := [], pending := [] }
        (some { user := some uAna })).2.1.any StoreCall.isLastActive) = false := by
  decide

/-- Claim C7, amended.  The listener never issues an `updateLastActive`
call on any transition: no such operation exists in the source. -/
theorem C7_amended (f : Faults) (w : World) (s : Option Session) :
    (authHandler f w s).2.1.any StoreCall.isLastActive = false := by
  rw [authHandler_calls_eq, List.any_eq_false]
  intro c hc
  rcases authHandlerTable_calls f w.table s c hc with ⟨i, hi⟩ | ⟨q, hq, h1, h2⟩
  · subst hi
    simp [StoreCall.isLastActive]
  · subst hq
    simp [StoreCall.isLastActive]

/-- Claim C8, confirmed.  Nothing escapes the listener callback: every
error thrown inside the body is caught and logged by the surrounding
try-catch. -/
theorem C8_handler_catches (f : Faults) (w : World) (s : Option Session) :
    (authHandler f w s).2.2.2 = .ok () ∧
    ∀ e, (authHandlerBody f w s).2.2 = .error e → (authHandler f w s).2.2.1 = [e] := by
  rcases h : authHandlerBody f w s with ⟨w', cs, r⟩
  cases r with
  | error e₀ =>
    constructor
    · simp [authHandler, h]
    · intro e he
      simp at he
      subst he
      simp [authHandler, h]
  | ok u =>
    cases u
    constructor
    · simp [authHandler, h]
    · intro e he
      simp at he

/-- Claim C8, witness: with a failing profile read the body throws, the
handler still finishes normally and the error is logged. -/
theorem C8_handler_catches_witness :
    (authHandler { readFails := true } { table := [], pending := [] }
        (some { user := some uAna })).2.2.2 = .ok () ∧
    (authHandler { readFails := true } { table := [], pending := [] }
        (some { user := some uAna })).2.2.1 = [.storeError "Erro ao buscar profile"] :=
  ⟨(C8_handler_catches { readFails := true } { table := [], pending := [] }
      (some { user := some uAna })).1,
    (C8_handler_catches { readFails := true } { table := [], pending := [] }
      (some { user := some uAna })).2 (.storeError "Erro ao buscar profile") (by decide)⟩

/-- Claim C9, confirmed.  With a falsy uid, `getProfile` returns null
immediately, issuing no store call and throwing no validation error. -/
theorem C9_empty_uid_read (f : Faults) (t : List Profile) (uid : Option String)
    (h : jsTruthy uid = false) :
    getProfile f t uid = ([], .ok none) := by
  simp [getProfile, h]

/-- Claim C9, witness at a missing uid over a nonempty table. -/
theorem C9_empty_uid_read_witness :
    getProfile {} [pAna] none = ([], .ok none) :=
  C9_empty_uid_read {} [pAna] none rfl

/-- Claim C10, confirmed.  When the provider sign-in succeeds but delivers
no user, `signIn` returns the needs-action result with no store call and
an unchanged table. -/
theorem C10_nouser_signin (f : Faults) (t : List Profile) :
    signIn f .noUser t = (t, [], .ok .needsAction) := rfl

end PortfolioAuth
